import Mathlib

/-!
PicaBot: shallow embedding and verification.

A shallow embedding of `picabot/picabot.py`: the reconnection rate
limiter (`_should_reconnect` and the `connect` loop), the command
tokenizer (`_split_message`), the frame dispatch (`_on_message` and
`_listen`), the outbound operations (`send`, `close`, `connected`) and
the `PicaMessage` field accessors.  Python exceptions are modelled as
explicit error values, awaited event emissions and transport calls as
explicit effect lists, and `datetime` timestamps as natural numbers of
microseconds.
-/

/-- Python exceptions that the embedded code can raise. -/
inductive PyErr where
  | valueError
  | keyError
  | attributeError
  | typeError
  | connectionError
  deriving DecidableEq

/-- Values produced by `json.loads`: strings, integers, booleans,
null, arrays and objects.  (Floats do not occur in any frame the
claims touch and are omitted.)  An object is its key/value list; the
source's `json.loads` yields `dict`s, whose keys are unique. -/
inductive JVal where
  | str (s : String)
  | num (n : Int)
  | bool (b : Bool)
  | null
  | arr (xs : List JVal)
  | obj (fields : List (String × JVal))

/-- First binding of a key in an object's field list — `dict` lookup
(keys are unique in a `dict`, so first = only). -/
def lookupField : List (String × JVal) → String → Option JVal
  | [], _ => none
  | (k, v) :: fs, key => if k = key then some v else lookupField fs key

/-- Python `value.get(key)`: `None`-defaulting lookup on a `dict`,
`AttributeError` on anything else. -/
def jGet : JVal → String → Except PyErr (Option JVal)
  | JVal.obj fs, key => Except.ok (lookupField fs key)
  | _, _ => Except.error PyErr.attributeError

/-- Python `value[key]` with a string key: lookup on a `dict` raising
`KeyError` when the key is absent, `TypeError` on anything else. -/
def subscript : JVal → String → Except PyErr JVal
  | JVal.obj fs, key =>
    match lookupField fs key with
    | some v => Except.ok v
    | none => Except.error PyErr.keyError
  | _, _ => Except.error PyErr.typeError

/-- Python `for x in value`: a list iterates its elements, a string
its characters, a dict its keys; numbers, booleans and `None` raise
`TypeError`. -/
def toIterable : JVal → Except PyErr (List JVal)
  | JVal.arr xs => Except.ok xs
  | JVal.str s => Except.ok (s.data.map (fun c => JVal.str (String.mk [c])))
  | JVal.obj fs => Except.ok (fs.map (fun p => JVal.str p.1))
  | _ => Except.error PyErr.typeError

/-- Python `value == s` for a string literal/attribute `s`: true only
when `value` is a string equal to `s` (comparing a non-string to a
string is `False`, never an error). -/
def pyEqStr (v : JVal) (s : String) : Bool :=
  match v with
  | JVal.str t => t == s
  | _ => false

/-- Python `str.startswith`, per code point. -/
def pyStartsWith (s pre : String) : Bool :=
  pre.data.isPrefixOf s.data

/-- Python `s[n:]`, slicing per code point. -/
def strDrop (s : String) (n : Nat) : String :=
  String.mk (s.data.drop n)

/-- Python `\s` for the ASCII range: the characters `str.split` and
`\S` treat as whitespace. -/
def pyIsSpace (c : Char) : Bool :=
  c = ' ' || c = '\t' || c = '\n' || c = '\r' || c = '\x0b' || c = '\x0c'

/-- The non-greedy search `"(.*?)"` performs after an opening quote:
the interior up to the first closing `"` reachable without crossing a
newline (`.` does not match `\n`), and the rest of the input after
that quote; `none` when no closing quote is reachable. -/
def findClose : List Char → Option (List Char × List Char)
  | [] => none
  | c :: cs =>
    if c = '"' then some ([], cs)
    else if c = '\n' then none
    else
      match findClose cs with
      | some (int, rest) => some (c :: int, rest)
      | none => none

/-- The greedy `\S+` run: the maximal leading run of non-whitespace
characters, and the rest. -/
def takeRun : List Char → List Char × List Char
  | [] => ([], [])
  | c :: cs =>
    if pyIsSpace c then ([], c :: cs)
    else
      let p := takeRun cs
      (c :: p.1, p.2)

/-- One `re.findall` scan of the alternation `"(.*?)"|(\S+)`: at each
position the quoted alternative is tried first, then the
non-whitespace run; positions where neither matches are skipped.  Each
match is the pair of its two capture groups, an unset group being the
empty string, exactly as `findall` reports them.  `fuel` bounds the
recursion; every step consumes at least one character, so
`fuel = input length` computes the full scan. -/
def findallScanF : Nat → List Char → List (String × String)
  | 0, _ => []
  | _, [] => []
  | fuel + 1, c :: cs =>
    if c = '"' then
      match findClose cs with
      | some (int, rest) => (String.mk int, "") :: findallScanF fuel rest
      | none =>
        let p := takeRun cs
        ("", String.mk (c :: p.1)) :: findallScanF fuel p.2
    else if pyIsSpace c then findallScanF fuel cs
    else
      let p := takeRun cs
      ("", String.mk (c :: p.1)) :: findallScanF fuel p.2

/-- The list comprehension `[m[0] if m[0] else m[1] for m in matches]`:
the first group when it is non-empty (truthy), else the second. -/
def pickGroup (m : String × String) : String :=
  if m.1 ≠ "" then m.1 else m.2

/-- Method `PicaBot._split_message`: tokenize via
`re.findall(r'"(.*?)"|(\S+)', message)` and keep, per match, the
non-empty quoted group or else the bare group. -/
def split_message (message : String) : List String :=
  (findallScanF message.data.length message.data).map pickGroup

/-- Python `timedelta.seconds` of a non-negative delta given in microseconds:
the seconds *component* of the normalized triple (days, seconds,
microseconds) — whole seconds modulo one day, not total seconds. -/
def tdSeconds (micros : Nat) : Nat :=
  micros / 1000000 % 86400

/-- Python `list.remove`: drop the first occurrence of a value (the
source only ever removes a value it just read, so the element is
present and the `ValueError` branch of `remove` is unreachable). -/
def removeFirst : List Nat → Nat → List Nat
  | [], _ => []
  | a :: as, x => if a = x then as else a :: removeFirst as x

/-- The prune loop of `_should_reconnect`:
`for attempt in attempts: if (now - attempt).seconds > 10: attempts.remove(attempt)`.
Python's list iterator keeps a bare index that advances after every
iteration even when `remove` shrank the list, so a removal skips the
element that slid into the removed slot.  `i` is that index; `fuel`
bounds the recursion and `fuel = length` runs the loop to completion,
since every iteration shrinks `length - i`.  Time passing between the
loop's `datetime.now()` calls is below the model's resolution, so a
single `now` stands for all of them. -/
def pruneLoop (now : Nat) : Nat → List Nat → Nat → List Nat
  | 0, l, _ => l
  | fuel + 1, l, i =>
    if h : i < l.length then
      let x := l.get ⟨i, h⟩
      if 10 < tdSeconds (now - x) then pruneLoop now fuel (removeFirst l x) (i + 1)
      else pruneLoop now fuel l (i + 1)
    else l

/-- Method `PicaBot._should_reconnect`: append the current time to
`_reconnection_attempts`, run the prune loop, and admit (return
`True`) only while fewer than 5 entries remain.  Returns the decision
and the new list. -/
def should_reconnect (now : Nat) (attempts : List Nat) : Bool × List Nat :=
  let l := attempts ++ [now]
  let pruned := pruneLoop now l.length l 0
  (decide (pruned.length < 5), pruned)

/-- The `while self._should_reconnect():` loop of `PicaBot.connect`,
abstracted over the times at which the loop would re-check: the
admitted attempt times, in order.  The loop body (connect, listen,
sleep) is opaque to the limiter; the loop exits at the first refused
check and makes no further attempts. -/
def connectRun : List Nat → List Nat → List Nat
  | [], _ => []
  | t :: rest, attempts =>
    let r := should_reconnect t attempts
    if r.1 then t :: connectRun rest r.2 else []

/-- The configuration of a `PicaBot` instance that the dispatch path
reads: `bot_name`, the command prefix (`self.prefix`) and the
registered command names (the keys of `self._commands`; handlers are
opaque to the model and a command invocation is recorded as an effect
naming its key). -/
structure BotConfig where
  botName : String
  cmdPref : String
  commands : List String

/-- The observable actions of `_on_message` and `_listen`: the awaited
`emit("raw", …)` and `emit("message", …)` calls, a command handler
invocation `self._commands[name](p_message, *args)`, and the
`logger.error` on a JSON parse failure.  A `message`/`command` effect
carries the envelope as the sub-record `PicaMessage` wraps. -/
inductive Effect where
  | raw (frame : JVal)
  | message (env : JVal)
  | command (name : String) (env : JVal) (args : List String)
  | logParseError (msg : String)

/-- The `for part in message["m"]:` body of `_on_message`, returning
the effects performed in order and, when an iteration raises, the
exception that aborted the loop (leaving later envelopes
unprocessed).  Per iteration: read `part["n"]` and `part["m"]`
(`PicaMessage.user_name` / `.message`, a `KeyError` when absent), skip
the bot's own messages, and otherwise route: a body starting with the
prefix is stripped and tokenized, an empty token list makes the
unpacking `command_name, *args = …` raise `ValueError`, a registered
first token invokes that command, and everything else emits
`"message"` with the envelope unchanged.  `startswith` on a non-string
body raises `AttributeError`. -/
def processParts (cfg : BotConfig) : List JVal → List Effect × Option PyErr
  | [] => ([], none)
  | part :: rest =>
    match subscript part "n" with
    | Except.error e => ([], some e)
    | Except.ok who =>
      match subscript part "m" with
      | Except.error e => ([], some e)
      | Except.ok body =>
        if pyEqStr who cfg.botName then processParts cfg rest
        else
          match body with
          | JVal.str s =>
            if pyStartsWith s cfg.cmdPref then
              match split_message (strDrop s cfg.cmdPref.length) with
              | [] => ([], some PyErr.valueError)
              | name :: args =>
                if cfg.commands.contains name then
                  let pr := processParts cfg rest
                  (Effect.command name part args :: pr.1, pr.2)
                else
                  let pr := processParts cfg rest
                  (Effect.message part :: pr.1, pr.2)
            else
              let pr := processParts cfg rest
              (Effect.message part :: pr.1, pr.2)
          | _ => ([], some PyErr.attributeError)

/-- Method `PicaBot._on_message`, abstracted over `json.loads` (`parse`,
`none` modelling `json.JSONDecodeError`): an empty frame returns at
once; a frame that fails to parse is logged and dropped; a parsed
frame is emitted as `"raw"` and, when its `"t"` discriminator equals
`"c"`, its `"m"` list is processed envelope by envelope.  The result
pairs the effects performed with the exception, if any, that escaped
`_on_message`. -/
def on_message (cfg : BotConfig) (parse : String → Option JVal) (msg : String) :
    List Effect × Option PyErr :=
  if msg = "" then ([], none)
  else
    match parse msg with
    | none => ([Effect.logParseError msg], none)
    | some j =>
      match jGet j "t" with
      | Except.error e => ([Effect.raw j], some e)
      | Except.ok tv =>
        if (match tv with | some v => pyEqStr v "c" | none => false) then
          match subscript j "m" with
          | Except.error e => ([Effect.raw j], some e)
          | Except.ok mv =>
            match toIterable mv with
            | Except.error e => ([Effect.raw j], some e)
            | Except.ok parts =>
              let pr := processParts cfg parts
              (Effect.raw j :: pr.1, pr.2)
        else ([Effect.raw j], none)

/-- The `async for message in self.ws:` loop of `PicaBot._listen` over
a given sequence of inbound frames: frames are handed to `_on_message`
in order; an exception escaping `_on_message` ends the loop (it is
caught and logged by `_listen`'s `except Exception` around the loop),
leaving the remaining frames unprocessed.  Returns the effects of the
processed frames and the exception that ended the loop, if any. -/
def listenLoop (cfg : BotConfig) (parse : String → Option JVal) :
    List String → List Effect × Option PyErr
  | [] => ([], none)
  | f :: rest =>
    let pr := on_message cfg parse f
    match pr.2 with
    | some e => (pr.1, some e)
    | none =>
      let rr := listenLoop cfg parse rest
      (pr.1 ++ rr.1, rr.2)

/-- Transport calls a `PicaBot` method can make on `self.ws`.  The
payload of `ws.send(json.dumps(message))` is recorded as the structured
value being serialized. -/
inductive WsAction where
  | sendText (payload : JVal)
  | closeWs

/-- Property `PicaBot.connected`: `self.ws is not None`.  The handle is a bare
identifier. -/
def connected (ws : Option Nat) : Bool :=
  ws.isSome

/-- Method `PicaBot.send`: raise `ConnectionError("Not connected")` when
`self.ws is None`, otherwise `await self.ws.send(json.dumps(message))`.
Returns the transport actions performed and the exception raised to
the caller, if any. -/
def send (ws : Option Nat) (message : JVal) : List WsAction × Option PyErr :=
  match ws with
  | none => ([], some PyErr.connectionError)
  | some _ => ([WsAction.sendText message], none)

/-- Method `PicaBot.close`: `if self.ws is not None: await self.ws.close()`.
Returns the transport actions performed and the value of `self.ws`
afterwards — the method never assigns to `self.ws`. -/
def close (ws : Option Nat) : List WsAction × Option Nat :=
  match ws with
  | some h => ([WsAction.closeWs], some h)
  | none => ([], none)

/-- Python `int(value)` as used by `PicaMessage.message_timestamp`:
an integer is itself, a numeric string parses, a malformed string
raises `ValueError`, a boolean is 0/1, other values raise
`TypeError`. -/
def pyInt : JVal → Except PyErr Int
  | JVal.num n => Except.ok n
  | JVal.str s =>
    match s.toInt? with
    | some i => Except.ok i
    | none => Except.error PyErr.valueError
  | JVal.bool b => Except.ok (if b then 1 else 0)
  | _ => Except.error PyErr.typeError

/-- Property `PicaMessage.channel_id`: `self.data["c"]`. -/
def PicaMessage.channel_id (data : JVal) : Except PyErr JVal :=
  subscript data "c"

/-- Property `PicaMessage.channel_name`: `self.data["rn"]`. -/
def PicaMessage.channel_name (data : JVal) : Except PyErr JVal :=
  subscript data "rn"

/-- Property `PicaMessage.channel_color`: `self.data["rc"]`. -/
def PicaMessage.channel_color (data : JVal) : Except PyErr JVal :=
  subscript data "rc"

/-- Property `PicaMessage.message_timestamp`: `int(self.data["a"])`. -/
def PicaMessage.message_timestamp (data : JVal) : Except PyErr Int :=
  (subscript data "a").bind pyInt

/-- Property `PicaMessage.message_id`: `self.data["id"]`. -/
def PicaMessage.message_id (data : JVal) : Except PyErr JVal :=
  subscript data "id"

/-- Property `PicaMessage.message`: `self.data["m"]`. -/
def PicaMessage.message (data : JVal) : Except PyErr JVal :=
  subscript data "m"

/-- Property `PicaMessage.user_id`: `self.data["u"]`. -/
def PicaMessage.user_id (data : JVal) : Except PyErr JVal :=
  subscript data "u"

/-- Property `PicaMessage.user_name`: `self.data["n"]`. -/
def PicaMessage.user_name (data : JVal) : Except PyErr JVal :=
  subscript data "n"

/-- Property `PicaMessage.user_color`: `self.data["k"]`. -/
def PicaMessage.user_color (data : JVal) : Except PyErr JVal :=
  subscript data "k"

/-- Property `PicaMessage.user_profile_pic`: `self.data["i"]`. -/
def PicaMessage.user_profile_pic (data : JVal) : Except PyErr JVal :=
  subscript data "i"

/-- Modelled from the spec's words, as amended: scanning left to
right, a double-quoted span beginning exactly at the current scan
position (non-greedy, possibly empty, not crossing a newline) is one
token equal to its interior content; otherwise a maximal run of
non-whitespace characters starting there is one token, a quote not at
a scan boundary counting as an ordinary non-whitespace character;
whitespace between tokens is skipped.  Fueled like the scan it is
compared with. -/
def tokenizeRefF : Nat → List Char → List String
  | 0, _ => []
  | _, [] => []
  | fuel + 1, c :: cs =>
    if c = '"' then
      match findClose cs with
      | some (int, rest) => String.mk int :: tokenizeRefF fuel rest
      | none =>
        let p := takeRun cs
        String.mk (c :: p.1) :: tokenizeRefF fuel p.2
    else if pyIsSpace c then tokenizeRefF fuel cs
    else
      let p := takeRun cs
      String.mk (c :: p.1) :: tokenizeRefF fuel p.2

/-- The spec-side tokenizer on a string. -/
def tokenizeRef (s : String) : List String :=
  tokenizeRefF s.data.length s.data

/-- An attempt the prune loop's condition keeps: its age has a
seconds component of at most 10. -/
def keptByPrune (now t : Nat) : Bool :=
  decide (tdSeconds (now - t) ≤ 10)

/-- Consecutive elements at least `gap` apart (the list read as
nondecreasing timestamps). -/
def spacedBy (gap : Nat) : List Nat → Bool
  | [] => true
  | [_] => true
  | a :: b :: rest => decide (gap ≤ b - a) && spacedBy gap (b :: rest)

/-- A concrete configuration: bot name `PicaBot`, prefix `!`, one
registered command `greet`. -/
def cfg0 : BotConfig :=
  ⟨"PicaBot", "!", ["greet"]⟩

/-- A well-formed chat sub-record from user `alice` whose body invokes
the registered command: `!greet Alice`. -/
def envA : JVal :=
  JVal.obj [("c", JVal.str "1"), ("rn", JVal.str "chan"), ("rc", JVal.str "#fff"),
    ("a", JVal.str "0"), ("id", JVal.str "m1"), ("m", JVal.str "!greet Alice"),
    ("u", JVal.str "7"), ("n", JVal.str "alice"), ("k", JVal.str "#000"),
    ("i", JVal.str "pic")]

/-- A well-formed sub-record from user `bob` whose body names an
unregistered command: `!unknown x`. -/
def envB : JVal :=
  JVal.obj [("c", JVal.str "1"), ("rn", JVal.str "chan"), ("rc", JVal.str "#fff"),
    ("a", JVal.str "0"), ("id", JVal.str "m2"), ("m", JVal.str "!unknown x"),
    ("u", JVal.str "8"), ("n", JVal.str "bob"), ("k", JVal.str "#001"),
    ("i", JVal.str "pic")]

/-- A sub-record whose `userName` equals the bot's configured name. -/
def envSelf : JVal :=
  JVal.obj [("c", JVal.str "1"), ("rn", JVal.str "chan"), ("rc", JVal.str "#fff"),
    ("a", JVal.str "0"), ("id", JVal.str "m3"), ("m", JVal.str "hello"),
    ("u", JVal.str "9"), ("n", JVal.str "PicaBot"), ("k", JVal.str "#002"),
    ("i", JVal.str "pic")]

/-- A chat-batch frame containing only the bot's own message. -/
def frameSelf : JVal :=
  JVal.obj [("t", JVal.str "c"), ("m", JVal.arr [envSelf])]

/-- A decoder oracle mapping the frame text `fr` to `frameSelf`. -/
def parseSelf : String → Option JVal :=
  fun m => if m = "fr" then some frameSelf else none

/-- A well-formed sub-record from user `carol` whose body is exactly
the command prefix. -/
def envBang : JVal :=
  JVal.obj [("c", JVal.str "1"), ("rn", JVal.str "chan"), ("rc", JVal.str "#fff"),
    ("a", JVal.str "0"), ("id", JVal.str "m4"), ("m", JVal.str "!"),
    ("u", JVal.str "10"), ("n", JVal.str "carol"), ("k", JVal.str "#003"),
    ("i", JVal.str "pic")]

/-- A well-formed sub-record from user `dora` whose body is the
command prefix followed only by whitespace. -/
def envWs : JVal :=
  JVal.obj [("c", JVal.str "1"), ("rn", JVal.str "chan"), ("rc", JVal.str "#fff"),
    ("a", JVal.str "0"), ("id", JVal.str "m5"), ("m", JVal.str "!  "),
    ("u", JVal.str "11"), ("n", JVal.str "dora"), ("k", JVal.str "#004"),
    ("i", JVal.str "pic")]

/-- A chat-batch frame whose first envelope's body is exactly the
prefix and whose second envelope would invoke `greet`. -/
def frameBang : JVal :=
  JVal.obj [("t", JVal.str "c"), ("m", JVal.arr [envBang, envA])]

/-- A chat-batch frame whose first envelope's body is the prefix
followed only by whitespace, the second again dispatchable. -/
def frameWs : JVal :=
  JVal.obj [("t", JVal.str "c"), ("m", JVal.arr [envWs, envA])]

/-- A decoder oracle for the two frames above. -/
def parseTen : String → Option JVal :=
  fun m => if m = "f1" then some frameBang else if m = "f2" then some frameWs else none

/-- A decoder oracle that rejects every frame. -/
def parseNone : String → Option JVal :=
  fun _ => none

theorem countP_removeFirst_of_neg (p : Nat → Bool) (l : List Nat) (x : Nat)
    (hx : p x = false) : (removeFirst l x).countP p = l.countP p := by
  induction l with
  | nil => rfl
  | cons a as ih =>
    by_cases hax : a = x
    · subst hax
      simp [removeFirst, List.countP_cons, hx]
    · simp [removeFirst, hax, List.countP_cons, ih]

/-- The prune loop only ever removes elements whose age has seconds
component above 10, so the number of kept-class entries is invariant,
whatever the fuel, the index, and the skipping that in-place removal
causes. -/
theorem pruneLoop_countP_kept (now : Nat) :
    ∀ (fuel : Nat) (l : List Nat) (i : Nat),
      (pruneLoop now fuel l i).countP (keptByPrune now) = l.countP (keptByPrune now) := by
  intro fuel
  induction fuel with
  | zero => intro l i; rfl
  | succ f ih =>
    intro l i
    simp only [pruneLoop]
    split
    · split
      · rename_i h hx
        rw [ih]
        refine countP_removeFirst_of_neg _ _ _ ?_
        simp only [keptByPrune, decide_eq_false_iff_not]
        omega
      · exact ih l (i + 1)
    · rfl

/-- C1: whenever at least 5 recorded attempts lie within 10 seconds of
the new attempt's check time, `_should_reconnect` returns `False` and
the `connect` loop terminates at that check, making no further
attempts. -/
theorem C1_window_saturation_refuses_and_stops
    (attempts : List Nat) (now : Nat) (rest : List Nat)
    (h : 5 ≤ attempts.countP (fun t => decide (now - t ≤ 10000000))) :
    (should_reconnect now attempts).1 = false ∧ connectRun (now :: rest) attempts = [] := by
  have himp : ∀ t ∈ attempts, (fun t => decide (now - t ≤ 10000000)) t = true →
      keptByPrune now t = true := by
    intro t _ ht
    have h1 : now - t ≤ 10000000 := of_decide_eq_true ht
    have h2 : (now - t) / 1000000 ≤ 10 := by
      calc (now - t) / 1000000 ≤ 10000000 / 1000000 := Nat.div_le_div_right h1
        _ = 10 := by norm_num
    have h3 : tdSeconds (now - t) ≤ 10 := le_trans (Nat.mod_le _ _) h2
    simpa [keptByPrune] using h3
  have hc : 5 ≤ attempts.countP (keptByPrune now) :=
    le_trans h (List.countP_mono_left himp)
  have hnow : keptByPrune now now = true := by simp [keptByPrune, tdSeconds]
  have happ : 6 ≤ ((attempts ++ [now]).countP (keptByPrune now)) := by
    rw [List.countP_append]
    have : List.countP (keptByPrune now) [now] = 1 := by simp [hnow]
    omega
  have hlen :
      6 ≤ (pruneLoop now (attempts ++ [now]).length (attempts ++ [now]) 0).length := by
    calc 6 ≤ (attempts ++ [now]).countP (keptByPrune now) := happ
      _ = (pruneLoop now (attempts ++ [now]).length (attempts ++ [now]) 0).countP
            (keptByPrune now) := (pruneLoop_countP_kept now _ _ _).symm
      _ ≤ _ := List.countP_le_length _
  have hfalse : (should_reconnect now attempts).1 = false := by
    have hnot :
        ¬ ((pruneLoop now (attempts ++ [now]).length (attempts ++ [now]) 0).length < 5) := by
      omega
    simpa [should_reconnect] using hnot
  exact ⟨hfalse, by simp [connectRun, hfalse]⟩

/-- Witness for C1: five attempts already recorded at time 0 make the
check at time 0 refuse and the run loop exit at once. -/
theorem C1_window_saturation_refuses_and_stops_witness :
    (should_reconnect 0 [0, 0, 0, 0, 0]).1 = false ∧ connectRun [0] [0, 0, 0, 0, 0] = [] :=
  C1_window_saturation_refuses_and_stops [0, 0, 0, 0, 0] 0 [] (by decide)

/-- C2 fails on the code: seven attempts, every consecutive pair at
least 10 seconds apart (the first conjunct), of which the run loop
admits only the first six — the 7th check returns `False` and the loop
exits, because `timedelta.seconds` is the seconds component modulo one
day, so entries a whole number of days (give or take 10 seconds) old
are never pruned and the window fills.  Times in microseconds:
0s, 86400s, 86410s, 172800s, 172810s, 259200s, 259210s. -/
theorem C2_ge_ten_second_spacing_refused_run :
    spacedBy 10000000
      [0, 86400000000, 86410000000, 172800000000, 172810000000,
        259200000000, 259210000000] = true ∧
    connectRun
      [0, 86400000000, 86410000000, 172800000000, 172810000000,
        259200000000, 259210000000] []
      = [0, 86400000000, 86410000000, 172800000000, 172810000000, 259200000000] := by
  constructor
  · decide
  · decide

/-- C3: for an envelope whose sender is not the bot's name, a body
starting with the prefix whose first token is a registered command
invokes exactly that command with the envelope and remaining tokens
and emits no `"message"` for it; a body not starting with the prefix,
or whose first token is unregistered, emits `"message"` with the
envelope unchanged (its body still carrying the prefix). -/
theorem C3_command_routing
    (cfg : BotConfig) (part : JVal) (rest : List JVal) (who : JVal) (s : String)
    (hn : subscript part "n" = Except.ok who)
    (hm : subscript part "m" = Except.ok (JVal.str s))
    (hwho : pyEqStr who cfg.botName = false) :
    (∀ name args,
        pyStartsWith s cfg.cmdPref = true →
        split_message (strDrop s cfg.cmdPref.length) = name :: args →
        cfg.commands.contains name = true →
        processParts cfg (part :: rest)
          = (Effect.command name part args :: (processParts cfg rest).1,
             (processParts cfg rest).2)) ∧
    ((pyStartsWith s cfg.cmdPref = false ∨
        (∃ name args, split_message (strDrop s cfg.cmdPref.length) = name :: args ∧
          cfg.commands.contains name = false)) →
      processParts cfg (part :: rest)
        = (Effect.message part :: (processParts cfg rest).1,
           (processParts cfg rest).2)) := by
  constructor
  · intro name args hstart hsplit hcmd
    have hmem : name ∈ cfg.commands := by simpa using hcmd
    simp [processParts, hn, hm, hwho, hstart, hsplit, hmem]
  · intro hcase
    rcases hcase with hstart | ⟨name, args, hsplit, hcmd⟩
    · simp [processParts, hn, hm, hwho, hstart]
    · have hmem : ¬ name ∈ cfg.commands := by simpa using hcmd
      by_cases hstart : pyStartsWith s cfg.cmdPref = true
      · simp [processParts, hn, hm, hwho, hstart, hsplit, hmem]
      · rw [Bool.not_eq_true] at hstart
        simp [processParts, hn, hm, hwho, hstart]

/-- Witness for C3: under `cfg0`, `!greet Alice` from `alice` invokes
`greet` with `["Alice"]` and nothing else; `!unknown x` from `bob`
emits `"message"` with the unchanged envelope. -/
theorem C3_command_routing_witness :
    processParts cfg0 [envA] = ([Effect.command "greet" envA ["Alice"]], none) ∧
    processParts cfg0 [envB] = ([Effect.message envB], none) := by
  constructor
  · exact (C3_command_routing cfg0 envA [] (JVal.str "alice") "!greet Alice"
      rfl rfl rfl).1 "greet" ["Alice"] rfl rfl rfl
  · exact (C3_command_routing cfg0 envB [] (JVal.str "bob") "!unknown x"
      rfl rfl rfl).2 (Or.inr ⟨"unknown", ["x"], rfl, rfl⟩)

/-- C4: an envelope whose `userName` equals the bot's configured name
is discarded — processing it is processing of the remaining envelopes,
with no `"message"` emission and no command invocation for it — while
the `"raw"` event for the containing frame is still emitted. -/
theorem C4_self_messages_discarded_raw_kept
    (cfg : BotConfig) (parse : String → Option JVal) (msg : String)
    (part : JVal) (parts : List JVal) (bodyv : JVal)
    (hn : subscript part "n" = Except.ok (JVal.str cfg.botName))
    (hm : subscript part "m" = Except.ok bodyv)
    (hmsg : msg ≠ "")
    (hparse : parse msg
      = some (JVal.obj [("t", JVal.str "c"), ("m", JVal.arr (part :: parts))])) :
    processParts cfg (part :: parts) = processParts cfg parts ∧
    on_message cfg parse msg
      = (Effect.raw (JVal.obj [("t", JVal.str "c"), ("m", JVal.arr (part :: parts))])
          :: (processParts cfg parts).1,
         (processParts cfg parts).2) := by
  have hskip : processParts cfg (part :: parts) = processParts cfg parts := by
    simp [processParts, hn, hm, pyEqStr]
  refine ⟨hskip, ?_⟩
  simp [on_message, hmsg, hparse, jGet, lookupField, subscript, toIterable, pyEqStr, hskip]

/-- Witness for C4: the bot's own message in `frameSelf` produces no
effect beyond the `"raw"` emission. -/
theorem C4_self_messages_discarded_raw_kept_witness :
    processParts cfg0 [envSelf] = processParts cfg0 [] ∧
    on_message cfg0 parseSelf "fr"
      = (Effect.raw frameSelf :: (processParts cfg0 []).1, (processParts cfg0 []).2) :=
  C4_self_messages_discarded_raw_kept cfg0 parseSelf "fr" envSelf [] (JVal.str "hello")
    rfl rfl (by decide) rfl

theorem pickGroup_quoted (s : String) : pickGroup (s, "") = s := by
  by_cases h : s = "" <;> simp [pickGroup, h]

theorem pickGroup_bare (s : String) : pickGroup ("", s) = s := by
  simp [pickGroup]

/-- Bridge for C5: mapping the source's group selection over the
`findall` scan gives exactly the boundary-aware tokenizer written from
the amended description, match by match. -/
theorem findallScan_map_eq_ref :
    ∀ (fuel : Nat) (l : List Char),
      (findallScanF fuel l).map pickGroup = tokenizeRefF fuel l := by
  intro fuel
  induction fuel with
  | zero => intro l; cases l <;> rfl
  | succ f ih =>
    intro l
    cases l with
    | nil => rfl
    | cons c cs =>
      simp only [findallScanF, tokenizeRefF]
      by_cases hq : c = '"'
      · simp only [hq, if_true]
        cases hfc : findClose cs with
        | some p =>
          obtain ⟨int, restl⟩ := p
          simp only [List.map_cons, ih, pickGroup_quoted]
        | none =>
          simp only [List.map_cons, ih, pickGroup_bare]
      · simp only [hq, if_false]
        by_cases hs : pyIsSpace c
        · simp [hs, ih]
        · simp only [Bool.not_eq_true] at hs
          simp [hs, ih, pickGroup_bare]

/-- C5 counterexample: `a"b c"d` contains the double-quoted span
`"b c"`, yet no token equals its interior `b c` — the scan, already
inside the non-whitespace run `a"b`, never tries the quoted
alternative at that opening quote.  The code yields
`["a\"b", "c\"d"]`. -/
theorem C5_quoted_span_counterexample :
    split_message "a\"b c\"d" = ["a\"b", "c\"d"] ∧
    ¬ ("b c" ∈ split_message "a\"b c\"d") := by
  constructor
  · rfl
  · decide

/-- C5 amended: the tokenizer produces tokens left-to-right where a
double-quoted span beginning at the current scan position (non-greedy,
possibly empty) yields one token equal to its interior and otherwise a
maximal run of non-whitespace characters yields one token, a quote not
at a scan boundary counting as an ordinary character; in particular
`cmd "hello world" foo` gives `["cmd", "hello world", "foo"]` and
`"" a b` gives `["", "a", "b"]`. -/
theorem C5_tokenizer_amended :
    (∀ s : String, split_message s = tokenizeRef s) ∧
    split_message "cmd \"hello world\" foo" = ["cmd", "hello world", "foo"] ∧
    split_message "\"\" a b" = ["", "a", "b"] := by
  refine ⟨?_, rfl, rfl⟩
  intro s
  exact findallScan_map_eq_ref s.data.length s.data

/-- C6: an empty frame is a no-op, and a non-empty frame the decoder
rejects is logged and dropped without an exception, so the listen loop
goes on to process the remaining frames. -/
theorem C6_bad_frames_dropped_loop_continues
    (cfg : BotConfig) (parse : String → Option JVal) (msg : String) (rest : List String)
    (hmsg : msg ≠ "") (hbad : parse msg = none) :
    on_message cfg parse "" = ([], none) ∧
    on_message cfg parse msg = ([Effect.logParseError msg], none) ∧
    listenLoop cfg parse (msg :: rest)
      = (Effect.logParseError msg :: (listenLoop cfg parse rest).1,
         (listenLoop cfg parse rest).2) := by
  have h1 : on_message cfg parse msg = ([Effect.logParseError msg], none) := by
    simp [on_message, hmsg, hbad]
  refine ⟨rfl, h1, ?_⟩
  simp [listenLoop, h1]

/-- Witness for C6: with a decoder that rejects everything, the frame
`x` is logged and dropped and the loop still reaches `y`. -/
theorem C6_bad_frames_dropped_loop_continues_witness :
    on_message cfg0 parseNone "" = ([], none) ∧
    on_message cfg0 parseNone "x" = ([Effect.logParseError "x"], none) ∧
    listenLoop cfg0 parseNone ["x", "y"]
      = (Effect.logParseError "x" :: (listenLoop cfg0 parseNone ["y"]).1,
         (listenLoop cfg0 parseNone ["y"]).2) :=
  C6_bad_frames_dropped_loop_continues cfg0 parseNone "x" ["y"] (by decide) rfl

/-- C7: `send` with `self.ws is None` raises `ConnectionError` to the
caller and performs no transport action, for every payload. -/
theorem C7_send_disconnected_raises_no_io (message : JVal) :
    send none message = ([], some PyErr.connectionError) :=
  rfl

/-- C8: each of the ten `PicaMessage` accessors, applied to a
sub-record lacking its field, yields a `KeyError` — never an envelope
value standing in for the absent field. -/
theorem C8_missing_fields_are_errors (fs : List (String × JVal)) :
    (lookupField fs "c" = none →
      PicaMessage.channel_id (JVal.obj fs) = Except.error PyErr.keyError) ∧
    (lookupField fs "rn" = none →
      PicaMessage.channel_name (JVal.obj fs) = Except.error PyErr.keyError) ∧
    (lookupField fs "rc" = none →
      PicaMessage.channel_color (JVal.obj fs) = Except.error PyErr.keyError) ∧
    (lookupField fs "a" = none →
      PicaMessage.message_timestamp (JVal.obj fs) = Except.error PyErr.keyError) ∧
    (lookupField fs "id" = none →
      PicaMessage.message_id (JVal.obj fs) = Except.error PyErr.keyError) ∧
    (lookupField fs "m" = none →
      PicaMessage.message (JVal.obj fs) = Except.error PyErr.keyError) ∧
    (lookupField fs "u" = none →
      PicaMessage.user_id (JVal.obj fs) = Except.error PyErr.keyError) ∧
    (lookupField fs "n" = none →
      PicaMessage.user_name (JVal.obj fs) = Except.error PyErr.keyError) ∧
    (lookupField fs "k" = none →
      PicaMessage.user_color (JVal.obj fs) = Except.error PyErr.keyError) ∧
    (lookupField fs "i" = none →
      PicaMessage.user_profile_pic (JVal.obj fs) = Except.error PyErr.keyError) := by
  refine ⟨?_, ?_, ?_, ?_, ?_, ?_, ?_, ?_, ?_, ?_⟩ <;> intro h
  · simp [PicaMessage.channel_id, subscript, h]
  · simp [PicaMessage.channel_name, subscript, h]
  · simp [PicaMessage.channel_color, subscript, h]
  · simp [PicaMessage.message_timestamp, subscript, h, Except.bind]
  · simp [PicaMessage.message_id, subscript, h]
  · simp [PicaMessage.message, subscript, h]
  · simp [PicaMessage.user_id, subscript, h]
  · simp [PicaMessage.user_name, subscript, h]
  · simp [PicaMessage.user_color, subscript, h]
  · simp [PicaMessage.user_profile_pic, subscript, h]

/-- Witness for C8: on the empty sub-record every accessor errors. -/
theorem C8_missing_fields_are_errors_witness :
    PicaMessage.channel_id (JVal.obj []) = Except.error PyErr.keyError ∧
    PicaMessage.channel_name (JVal.obj []) = Except.error PyErr.keyError ∧
    PicaMessage.channel_color (JVal.obj []) = Except.error PyErr.keyError ∧
    PicaMessage.message_timestamp (JVal.obj []) = Except.error PyErr.keyError ∧
    PicaMessage.message_id (JVal.obj []) = Except.error PyErr.keyError ∧
    PicaMessage.message (JVal.obj []) = Except.error PyErr.keyError ∧
    PicaMessage.user_id (JVal.obj []) = Except.error PyErr.keyError ∧
    PicaMessage.user_name (JVal.obj []) = Except.error PyErr.keyError ∧
    PicaMessage.user_color (JVal.obj []) = Except.error PyErr.keyError ∧
    PicaMessage.user_profile_pic (JVal.obj []) = Except.error PyErr.keyError := by
  have h := C8_missing_fields_are_errors []
  exact ⟨h.1 rfl, h.2.1 rfl, h.2.2.1 rfl, h.2.2.2.1 rfl, h.2.2.2.2.1 rfl,
    h.2.2.2.2.2.1 rfl, h.2.2.2.2.2.2.1 rfl, h.2.2.2.2.2.2.2.1 rfl,
    h.2.2.2.2.2.2.2.2.1 rfl, h.2.2.2.2.2.2.2.2.2 rfl⟩

/-- C9: `close` on a connected bot never clears `self.ws`, so
`connected` still reports `true` afterwards and a subsequent `send`
passes the guard and attempts transport I/O on the closed handle. -/
theorem C9_close_leaves_handle_set (h : Nat) (message : JVal) :
    (close (some h)).2 = some h ∧
    connected (close (some h)).2 = true ∧
    send (close (some h)).2 message = ([WsAction.sendText message], none) :=
  ⟨rfl, rfl, rfl⟩

/-- C10: a well-formed chat batch whose first envelope's body is
exactly the prefix (`frameBang`) or the prefix followed by whitespace
(`frameWs`) makes the tokenizer return no tokens and the unpacking
raise `ValueError` out of `_on_message`: the second envelope — which
would have invoked `greet` — is never dispatched, and the listen loop
ends before the next frame. -/
theorem C10_empty_tokenization_raises :
    on_message cfg0 parseTen "f1" = ([Effect.raw frameBang], some PyErr.valueError) ∧
    on_message cfg0 parseTen "f2" = ([Effect.raw frameWs], some PyErr.valueError) ∧
    listenLoop cfg0 parseTen ["f1", "g"] = ([Effect.raw frameBang], some PyErr.valueError) :=
  ⟨rfl, rfl, rfl⟩
